import Mathlib

/- Shallow embedding of the papers2-to-Zotero importer (jiversen/papers2):
   the Checkpoint store (papers2/util.py), the batch failure handling of
   ZoteroImporter (papers2/zotero.py), the field-extraction rules
   (papers2/zotero.py), bundle resolution (papers2/schema.py), and the
   attachment movers (papers2/gdrive.py and the CLI's localAttachmentMover). -/

namespace Papers2

/-- Checkpoint (util.py, class Checkpoint): committed-success set ids,
failed set, and the ordered uncommitted (pending) list. -/
structure Checkpoint where
  ids : Finset Int
  failed : Finset Int
  uncommitted : List Int
deriving DecidableEq

/-- Checkpoint.add (util.py line 88): append to the pending list and discard
the id from the failed set (the source comment: we are giving it another chance). -/
def Checkpoint.add (cp : Checkpoint) (dbId : Int) : Checkpoint :=
  { cp with uncommitted := cp.uncommitted ++ [dbId], failed := cp.failed.erase dbId }

/-- Checkpoint.add_failed (util.py line 98). -/
def Checkpoint.addFailed (cp : Checkpoint) (dbId : Int) : Checkpoint :=
  { cp with failed := insert dbId cp.failed }

/-- Checkpoint.get (util.py line 95): positional lookup in the pending list.
Python raises IndexError out of range; modelled with Option. -/
def Checkpoint.get (cp : Checkpoint) (idx : Nat) : Option Int :=
  cp.uncommitted.get? idx

/-- In-memory part of Checkpoint.commit (util.py line 101): move every pending
id that is not in the failed set into ids, clear the pending list. -/
def Checkpoint.commitCp (cp : Checkpoint) : Checkpoint :=
  { cp with
    ids := cp.ids ∪ (cp.uncommitted.filter (fun i => decide (i ∉ cp.failed))).toFinset,
    uncommitted := [] }

/-- Checkpoint.rollback (util.py line 108): drop the pending list only. -/
def Checkpoint.rollback (cp : Checkpoint) : Checkpoint :=
  { cp with uncommitted := [] }

/-- Checkpoint.contains (util.py line 111). -/
def Checkpoint.contains (cp : Checkpoint) (dbId : Int) : Bool :=
  decide (dbId ∈ cp.ids)

/-- Checkpoint.contains_failed (util.py line 114). -/
def Checkpoint.containsFailed (cp : Checkpoint) (dbId : Int) : Bool :=
  decide (dbId ∈ cp.failed)

/-- The mutating operations of the Checkpoint API. -/
inductive CpOp
  | add (i : Int)
  | addFailed (i : Int)
  | commit
  | rollback

def Checkpoint.applyOp (cp : Checkpoint) : CpOp → Checkpoint
  | .add i => cp.add i
  | .addFailed i => cp.addFailed i
  | .commit => cp.commitCp
  | .rollback => cp.rollback

def Checkpoint.applyOps (cp : Checkpoint) (ops : List CpOp) : Checkpoint :=
  ops.foldl Checkpoint.applyOp cp

/-- Fresh checkpoint when no file exists yet (util.py lines 83-86). -/
def Checkpoint.initialState : Checkpoint := ⟨∅, ∅, []⟩

/-- On-disk checkpoint file: either a fully written pickled pair, or a
truncated / partially written file. -/
inductive DiskFile
  | saved (ids failed : Finset Int)
  | torn
deriving DecidableEq

/-- Possible on-disk states while Checkpoint.commit (util.py lines 104-105)
runs, starting from disk. The write is open(filename, 'wb') followed by
pickle.dump: opening with 'wb' truncates in place, so a crash after the open
but before the dump completes leaves a torn file; only after the dump
completes does the file hold the new (ids, failed) pair. There is no
write-then-rename step. -/
def Checkpoint.commitWriteStates (cp : Checkpoint) (disk : DiskFile) : List DiskFile :=
  [disk, .torn, .saved (cp.commitCp).ids cp.failed]

/-- Enqueue a run of rowids through Checkpoint.add, in order, as the
importer's add_pub does once per enqueued publication. -/
def enqueueAll (cp : Checkpoint) (rs : List Int) : Checkpoint :=
  rs.foldl Checkpoint.add cp

/-- ZoteroImporter._commit_batch failure handling (zotero.py lines 441-446)
for one reported failed batch position: rowid = checkpoint.get(item_idx),
then checkpoint.add_failed(rowid). Python raises IndexError when the
position is out of range of the pending list; modelled as a no-op there. -/
def markItemFailed (cp : Checkpoint) (k : Nat) : Checkpoint :=
  match cp.get k with
  | some rowid => cp.addFailed rowid
  | none => cp

/-- The importer state relevant to enqueueing: the batch (abstracted to the
rowids of the enqueued items, in order) and the checkpoint. -/
structure ImportState where
  batch : List Int
  cp : Checkpoint

/-- ZoteroImporter.add_pub skip-check and enqueue logic (zotero.py lines
351-362 and 409-412), for a run with a checkpoint present: skip when the id
is in the success set; skip when it is in the failed set and retry was not
requested; otherwise stage the publication into the batch and the
checkpoint's pending list and report true. The metadata extraction between
those steps does not touch the checkpoint and is abstracted away. -/
def addPub (st : ImportState) (retry : Bool) (rowid : Int) : Bool × ImportState :=
  if st.cp.contains rowid then (false, st)
  else if st.cp.containsFailed rowid && !retry then (false, st)
  else (true, ⟨st.batch ++ [rowid], st.cp.add rowid⟩)

/-- Python values flowing through Extract.extract (zotero.py lines 94-126):
None, strings, integers, and tuples or lists of values. -/
inductive PyVal
  | none
  | str (s : String)
  | int (n : Int)
  | tup (vs : List PyVal)

/-- Python truthiness, as used by the falsy filter in Extract.format_tuple
(zotero.py line 129). -/
def PyVal.truthy : PyVal → Bool
  | .none => false
  | .str s => decide (s ≠ "")
  | .int n => decide (n ≠ 0)
  | .tup vs => !vs.isEmpty

/-- Python str() of a scalar value, as produced by string formatting:
str(None) is the 4-character string None. A tuple is not rendered by any
rule modelled here. -/
def pyStr : PyVal → String
  | .none => "None"
  | .str s => s
  | .int n => toString n
  | .tup _ => ""

/-- An extraction rule: the num_values setting, the (possibly overridden)
format_tuple method, and the (possibly overridden) format method.
format_tuple returns a list of values or Python None. -/
structure ExtractRule where
  numValues : Option Nat
  fmtTuple : List PyVal → Nat → Option (List PyVal)
  fmt : PyVal → PyVal

/-- Extract.format_tuple (zotero.py lines 128-134): drop falsy entries,
recompute nvals as the minimum with the filtered length, and when that is
positive return the formatted values. The source guard is
if len(values) < nvals, which can never hold after the min on the previous
line, so the values list is never actually truncated; when nvals is zero
the method falls through and returns Python None. -/
def formatTupleBase (fmt : PyVal → PyVal) (values : List PyVal) (nvals : Nat) :
    Option (List PyVal) :=
  let values := values.filter PyVal.truthy
  let nvals := min nvals values.length
  if 0 < nvals then
    let values := if values.length < nvals then values.take nvals else values
    some (values.map fmt)
  else Option.none

/-- A rule of the base Extract class with the given num_values and format. -/
def baseRule (n : Option Nat) (fmt : PyVal → PyVal) : ExtractRule :=
  ⟨n, formatTupleBase fmt, fmt⟩

/-- ExtractRange.format_tuple (zotero.py lines 143-144): a one-element tuple
holding the first two values joined by a dash, with no falsy filtering and
no use of nvals. The Python format call raises IndexError when given fewer
than two values; every call site passes a (startpage, endpage) pair. -/
def rangeFormatTuple (values : List PyVal) (_nvals : Nat) : Option (List PyVal) :=
  some [PyVal.str (pyStr (values.getD 0 PyVal.none) ++ "-" ++ pyStr (values.getD 1 PyVal.none))]

/-- The pages rule of the EXTRACTORS table (zotero.py line 286): an
ExtractRange with the default num_values of 1 and the identity format. -/
def rangeRule : ExtractRule :=
  ⟨some 1, rangeFormatTuple, id⟩

/-- Extract.extract (zotero.py lines 94-126), after the value has been
obtained from the accessor: a None value is returned as is; a string is
passed through format; a non-iterable scalar makes tuple() raise TypeError,
which is caught and the value passed through format; an iterable is counted,
capped by num_values, passed through format_tuple, and then a None or empty
result becomes None while a single requested-and-obtained value is collapsed
to a scalar (value[0]). return_tuple is computed before the cap, exactly as
in the source. -/
def ExtractRule.extract (e : ExtractRule) (value : PyVal) : PyVal :=
  match value with
  | .none => .none
  | .str s => e.fmt (.str s)
  | .int n => e.fmt (.int n)
  | .tup vs =>
    let nvals0 := vs.length
    let returnTuple : Bool := decide (e.numValues ≠ some 1)
    let nvals := match e.numValues with
      | some n => min nvals0 n
      | Option.none => nvals0
    match e.fmtTuple vs nvals with
    | some out =>
      if out.length = 0 then .none
      else if nvals = 1 && !returnTuple then out.getD 0 PyVal.none
      else .tup out
    | Option.none => .none

/-- The pages extraction (zotero.py line 286): the range rule applied to the
(startpage, endpage) pair of the publication, where either bound can be the
database NULL, i.e. Python None. -/
def extractPages (startpage endpage : Option Int) : PyVal :=
  rangeRule.extract (.tup [startpage.elim PyVal.none PyVal.int,
                           endpage.elim PyVal.none PyVal.int])

/-- Python string slice s[a:b] for a le b: characters a up to b, clamped to
the length of the string. A slice is always a string, never Python None. -/
def pySlice (s : String) (a b : Nat) : String :=
  String.mk ((s.toList.drop a).take (b - a))

/-- ExtractPubdate.format (zotero.py lines 159-180). The source guards year,
month and day each with an is-not-None test, but Python slices are strings
(possibly empty), never None, so each guard always holds and every branch
below it always runs. -/
def ExtractPubdate.format (pubDate : String) : String :=
  let year := pySlice pubDate 2 6
  let dateStr := year
  let month := pySlice pubDate 6 8
  let month := if month = "00" then "01" else month
  let dateStr := dateStr ++ "-" ++ month
  let day := pySlice pubDate 8 10
  let day := if day = "00" then "01" else day
  dateStr ++ "-" ++ day

/-- A publication row as needed for bundle resolution (schema.py): the
ROWID, title, the bundle link column (a string or NULL), and the free-text
bundle_string column. -/
structure Pub where
  rowid : Int
  title : String
  bundle : Option String
  bundleString : String

/-- An optional leading sign of a decimal numeral: whether it is negative,
and the remaining characters. -/
def parseSign : List Char → Bool × List Char
  | '-' :: rest => (true, rest)
  | '+' :: rest => (false, rest)
  | cs => (false, cs)

/-- Python int(x) for the bundle column: raises for None and for a
non-numeric string (both caught by the bare except in get_bundle), and
yields the integer for an optionally signed run of decimal digits. -/
def pythonInt (s : Option String) : Option Int :=
  s.bind fun t =>
    let p := parseSign t.toList
    if !p.2.isEmpty && p.2.all Char.isDigit then
      let n : Nat := p.2.foldl (fun acc c => 10 * acc + (c.toNat - 48)) 0
      some (if p.1 then -(n : Int) else (n : Int))
    else Option.none

/-- Papers2.get_publication (schema.py lines 148-152): Query.one() returns
the single matching row and raises when there is no match (or more than
one); modelled with Except. -/
def getPublication (db : List Pub) (pubId : Int) : Except Unit Pub :=
  match db.filter (fun p => decide (p.rowid = pubId)) with
  | [p] => .ok p
  | _ => .error ()

/-- Papers2.get_bundle (schema.py lines 159-167): the try block wraps only
int(pub.bundle), so a None or non-numeric bundle returns None, while a
numeric bundle reaches get_publication whose raise is not caught. The
per-instance cache does not change the result and is dropped. -/
def getBundle (db : List Pub) (pub : Pub) : Except Unit (Option Pub) :=
  match pythonInt pub.bundle with
  | Option.none => .ok Option.none
  | some bundleId => (getPublication db bundleId).map some

/-- ExtractBundle.get_value (zotero.py lines 151-156): the linked record's
title when the bundle resolves, else the record's own bundle_string; an
exception raised inside get_bundle propagates. -/
def ExtractBundle.getValue (db : List Pub) (pub : Pub) : Except Unit String :=
  match getBundle db pub with
  | .ok (some journal) => .ok journal.title
  | .ok Option.none => .ok pub.bundleString
  | .error e => .error e

/-- Errors raised by the google-drive backend: HttpError (the only class the
move method catches) versus any other exception. -/
inductive GErr
  | http (msg : String)
  | other (msg : String)
deriving DecidableEq

/-- The google-drive backend operations used by GDriveAttachmentMover.move
(gdrive.py lines 102-125): fs._get_item_id (resolving a path to an item id,
creating folders when asked), files().get fetching the parent list,
files().update reparenting, and files().patch renaming. Each may raise. -/
structure GBackend where
  serviceAvailable : Bool
  getItemId : String → Except GErr Nat
  filesGetParents : Nat → Except GErr (List Nat)
  filesUpdate : Nat → Nat → List Nat → Except GErr Nat
  filesPatch : Nat → String → Except GErr Unit

/-- The drive root prefix (gdrive.py line 47). -/
def GROOT : String := "root"

/-- os.path.dirname over slash-separated paths: everything before the final
slash (empty when there is none). -/
def dirname (p : String) : String :=
  String.intercalate "/" (p.splitOn "/").dropLast

/-- os.path.basename over slash-separated paths: everything after the final
slash. -/
def basename (p : String) : String :=
  (p.splitOn "/").getLastD ""

/-- The try block of GDriveAttachmentMover.move (gdrive.py lines 112-119):
fetch the file's parents, update the file to the new folder, then patch its
title to the destination filename, yielding the updated file. -/
def gdriveTrySequence (b : GBackend) (fileId newFolderId : Nat) (toFilename : String) :
    Except GErr Nat :=
  match b.filesGetParents fileId with
  | .error e => .error e
  | .ok _parents =>
    match b.filesUpdate fileId newFolderId _parents with
    | .error e => .error e
    | .ok f =>
      match b.filesPatch fileId toFilename with
      | .error e => .error e
      | .ok _ => .ok f

/-- GDriveAttachmentMover.move (gdrive.py lines 102-125). When the service
is absent it returns Python None. The two _get_item_id calls sit outside the
try block, so their exceptions propagate. Inside the try block only
HttpError is caught, logged, and turned into a Python None result; any other
exception propagates. On success the method returns the (truthy) file
object, modelled as some of its id. The result is a file object or None,
never a boolean. -/
def gdriveMove (b : GBackend) (fromPath toPath : String) : Except GErr (Option Nat) :=
  if b.serviceAvailable then
    match b.getItemId (GROOT ++ fromPath) with
    | .error e => .error e
    | .ok fileId =>
      match b.getItemId (GROOT ++ dirname toPath) with
      | .error e => .error e
      | .ok newFolderId =>
        match gdriveTrySequence b fileId newFolderId (basename toPath) with
        | .ok f => .ok (some f)
        | .error (.http _) => .ok Option.none
        | .error (.other m) => .error (.other m)
  else .ok Option.none

/-- Outcome of one local filesystem step (directory creation, copy or move). -/
inductive FsOutcome
  | ok
  | ioError (msg : String)
deriving DecidableEq

/-- Modelled from the spec: localAttachmentMover is imported by
bin/papers2zotero.py (line 17) from papers2.gdrive but no such class exists
in the source tree; per the spec its move first creates the destination
directory recursively, then copies (default) or moves the file, returning
success or failure as a boolean and logging and swallowing I/O errors into
a false return rather than propagating. The two fallible filesystem steps
are passed in as outcomes. -/
def localAttachmentMoverMove (ensureDir transfer : FsOutcome) : Bool :=
  match ensureDir with
  | .ioError _ => false
  | .ok =>
    match transfer with
    | .ioError _ => false
    | .ok => true

theorem enqueueAll_uncommitted (cp : Checkpoint) (rs : List Int) :
    (enqueueAll cp rs).uncommitted = cp.uncommitted ++ rs := by
  induction rs generalizing cp with
  | nil => simp [enqueueAll]
  | cons r rs ih =>
    show (enqueueAll (cp.add r) rs).uncommitted = _
    rw [ih]
    simp [Checkpoint.add]

/-- C1, counterexample: the sequence add 1, commit, add_failed 1, commit,
run from a fresh checkpoint, ends with id 1 in both the committed-success
set and the failed set, so the claimed disjointness after every commit does
not hold for every sequence of Checkpoint operations. -/
theorem c1_commit_disjoint_counterexample :
    1 ∈ (Checkpoint.applyOps .initialState
          [.add 1, .commit, .addFailed 1, .commit]).ids ∧
    1 ∈ (Checkpoint.applyOps .initialState
          [.add 1, .commit, .addFailed 1, .commit]).failed := by
  decide

/-- C1, amended: commit moves exactly the staged-pending ids that are not in
the failed set into the committed-success set, clears the pending list and
leaves the failed set unchanged; every id staged and not failed is in the
success set and outside the failed set right after that commit, and add
discards a prior failure. The two sets are however not disjoint after every
commit, because add_failed can later mark an id that an earlier commit
already moved to success. -/
theorem c1_commit_moves_pending (cp : Checkpoint) (i : Int)
    (hmem : i ∈ cp.uncommitted) (hnf : i ∉ cp.failed) :
    (cp.commitCp).ids =
      cp.ids ∪ (cp.uncommitted.filter (fun j => decide (j ∉ cp.failed))).toFinset ∧
    (cp.commitCp).uncommitted = [] ∧
    (cp.commitCp).failed = cp.failed ∧
    i ∈ (cp.commitCp).ids ∧
    i ∉ (cp.commitCp).failed ∧
    (cp.add i).failed = cp.failed.erase i := by
  refine ⟨rfl, rfl, rfl, ?_, hnf, rfl⟩
  exact Finset.mem_union_right _ (by simp [List.mem_filter, hmem, hnf])

theorem c1_commit_moves_pending_witness :
    1 ∈ ((Checkpoint.mk ∅ {2} [1]).commitCp).ids :=
  (c1_commit_moves_pending ⟨∅, {2}, [1]⟩ 1 (by decide) (by decide)).2.2.2.1

/-- C2: after enqueueing a batch of rowids rs through Checkpoint.add from an
empty pending list, a remote failure report for position k makes
_commit_batch mark as failed exactly the rowid enqueued at position k: the
pending-list lookup at k yields that rowid, and the failure marking inserts
it, and nothing else, into the failed set, leaving ids and the pending list
untouched, regardless of the batch size and the other positions. -/
theorem c2_batch_position_integrity (cp : Checkpoint) (rs : List Int) (k : Nat)
    (h0 : cp.uncommitted = []) (hk : k < rs.length) :
    (enqueueAll cp rs).get k = some (rs.get ⟨k, hk⟩) ∧
    (markItemFailed (enqueueAll cp rs) k).failed =
      insert (rs.get ⟨k, hk⟩) (enqueueAll cp rs).failed ∧
    (markItemFailed (enqueueAll cp rs) k).ids = (enqueueAll cp rs).ids ∧
    (markItemFailed (enqueueAll cp rs) k).uncommitted =
      (enqueueAll cp rs).uncommitted := by
  have hget : (enqueueAll cp rs).get k = some (rs.get ⟨k, hk⟩) := by
    unfold Checkpoint.get
    rw [enqueueAll_uncommitted, h0, List.nil_append]
    exact List.get?_eq_get hk
  refine ⟨hget, ?_, ?_, ?_⟩ <;> simp [markItemFailed, hget, Checkpoint.addFailed]

theorem c2_batch_position_integrity_witness :
    (markItemFailed (enqueueAll ⟨∅, ∅, []⟩ [10, 20, 30]) 1).failed =
      insert 20 (enqueueAll (⟨∅, ∅, []⟩ : Checkpoint) [10, 20, 30]).failed := by
  have h := c2_batch_position_integrity ⟨∅, ∅, []⟩ [10, 20, 30] 1 rfl (by decide)
  exact h.2.1

/-- C3, counterexample: commit overwrites the checkpoint file in place, so
among the on-disk states reachable when the process crashes during commit
there is a torn (truncated) file, which differs from the previously
committed state; commit is not write-then-rename. -/
theorem c3_commit_atomicity_counterexample :
    DiskFile.torn ∈ (Checkpoint.mk {1} ∅ [2]).commitWriteStates (.saved {1} ∅) ∧
    DiskFile.torn ≠ DiskFile.saved {1} ∅ := by
  refine ⟨by simp [Checkpoint.commitWriteStates], by simp⟩

/-- C3, amended: a crash strictly before commit opens the checkpoint file
leaves the previously committed on-disk state, and a completed commit leaves
the new (success-set, failed-set) pair, but commit writes by truncating the
file in place (open with mode wb, then pickle.dump), so a crash during the
write can leave a partially-written file; there is no write-then-rename. -/
theorem c3_commit_overwrites_in_place (cp : Checkpoint) (disk : DiskFile) :
    (cp.commitWriteStates disk).getD 0 .torn = disk ∧
    (cp.commitWriteStates disk).getLast? =
      some (.saved (cp.commitCp).ids cp.failed) ∧
    DiskFile.torn ∈ cp.commitWriteStates disk := by
  refine ⟨rfl, rfl, by simp [Checkpoint.commitWriteStates]⟩

/-- C4, counterexample: for an id whose failure was committed in a previous
run, add followed by rollback does not restore the failed set: add discards
the id from the in-memory failed set at once and rollback clears only the
pending list, so contains_failed is false afterwards, and the in-memory
checkpoint differs from the last committed state. -/
theorem c4_rollback_counterexample :
    (((Checkpoint.mk ∅ {7} []).add 7).rollback).containsFailed 7 = false := by
  decide

/-- C4, amended: rollback discards exactly the pending list without
persisting anything; mutations of the failed set made since the last commit
(the discard done by add, the insertions done by add_failed) are kept in
memory, so after add of a previously-failed id followed by rollback the id
is no longer in the failed set. -/
theorem c4_rollback_clears_pending_only (cp : Checkpoint) (i : Int) :
    cp.rollback = ⟨cp.ids, cp.failed, []⟩ ∧
    (cp.add i).rollback = ⟨cp.ids, cp.failed.erase i, []⟩ :=
  ⟨rfl, rfl⟩

/-- C5: a record whose id is in the committed-failed set (and not in the
success set) is skipped by add_pub when retry is not requested and enqueued
when it is; after the enqueue the id is no longer in the failed set, and the
following commit puts it into the success set. -/
theorem c5_retry_semantics (st : ImportState) (rowid : Int)
    (h1 : st.cp.contains rowid = false) (h2 : st.cp.containsFailed rowid = true) :
    addPub st false rowid = (false, st) ∧
    (addPub st true rowid).1 = true ∧
    (addPub st true rowid).2.cp.containsFailed rowid = false ∧
    rowid ∈ ((addPub st true rowid).2.cp.commitCp).ids := by
  have henq : addPub st true rowid = (true, ⟨st.batch ++ [rowid], st.cp.add rowid⟩) := by
    simp [addPub, h1, h2]
  refine ⟨by simp [addPub, h1, h2], by rw [henq], ?_, ?_⟩
  · rw [henq]
    simp [Checkpoint.containsFailed, Checkpoint.add]
  · rw [henq]
    simp only [Checkpoint.commitCp, Checkpoint.add]
    exact Finset.mem_union_right _ (by simp [List.mem_filter])

theorem c5_retry_semantics_witness :
    5 ∈ (((addPub ⟨[], ⟨∅, {5}, []⟩⟩ true 5).2.cp.commitCp).ids) :=
  (c5_retry_semantics ⟨[], ⟨∅, {5}, []⟩⟩ 5 (by decide) (by decide)).2.2.2

/-- C6, counterexample: with startpage absent (Python None) and endpage 15
the pages rule does not omit the field; ExtractRange.format_tuple performs
no falsy filtering, so the extraction yields the string None-15. -/
theorem c6_pages_counterexample :
    extractPages Option.none (some 15) = PyVal.str "None-15" ∧
    extractPages Option.none (some 15) ≠ PyVal.none := by
  refine ⟨rfl, ?_⟩
  rw [show extractPages Option.none (some 15) = PyVal.str "None-15" from rfl]
  simp

/-- C6, amended: the pages rule produces start-end when both bounds are
present, but when a bound is absent it still produces a string in which the
missing bound is rendered as the literal text None (for example None-15),
rather than omitting the pages field. -/
theorem c6_pages_amended (a b : Int) :
    extractPages (some a) (some b) = PyVal.str (toString a ++ "-" ++ toString b) ∧
    extractPages Option.none (some b) = PyVal.str ("None-" ++ toString b) ∧
    extractPages (some a) Option.none = PyVal.str (toString a ++ "-" ++ "None") :=
  ⟨rfl, rfl, rfl⟩

/-- C7: evaluation of ExtractPubdate.format at the divergent input. For a
prefix-plus-10-digit code with zero month and day the rendering is indeed
YYYY-01-01, but for a code holding only the year the result is the year
followed by two dashes, not the bare 4-digit year: the month and day slices
are empty strings, never None, so the guards in the source always run and
append a dash each. -/
theorem c7_pubdate_eval :
    ExtractPubdate.format "992005000061" = "2005-01-01" ∧
    ExtractPubdate.format "992005" = "2005--" :=
  ⟨rfl, rfl⟩

/-- C8: evaluation of Extract.extract at the divergent input. With a
requested maximum of 2 values and three truthy entries the rule returns all
three formatted values: the source guards the truncation with
len(values) < nvals, which never holds after nvals was just lowered to
min(nvals, len(values)), so the cap is never applied. The parts of the
claim about falsy filtering, collapsing a single requested value and the
None result for an empty remainder do hold, as the last two conjuncts show. -/
theorem c8_extract_eval :
    (baseRule (some 2) id).extract (.tup [.int 1, .int 2, .int 3]) =
      PyVal.tup [.int 1, .int 2, .int 3] ∧
    (baseRule (some 1) id).extract (.tup [.int 0, .int 5]) = PyVal.int 5 ∧
    (baseRule (some 1) id).extract (.tup [.int 0]) = PyVal.none :=
  ⟨rfl, rfl, rfl⟩

/-- C9, counterexample: a dangling bundle link raises. With a numeric bundle
column naming a rowid that matches no record, get_bundle reaches
get_publication, whose one() call raises; the bare except in get_bundle
wraps only the int conversion, so the exception propagates out of the
bundle rule instead of falling back to bundle_string. -/
theorem c9_bundle_counterexample :
    ExtractBundle.getValue [] ⟨1, "title", some "42", "fallback"⟩ =
      .error () :=
  rfl

/-- C9, amended: the bundle rule returns the linked record's title when the
link column parses as an integer and resolves to exactly one record, and
falls back to the record's free-text bundle string when the link is absent
or non-numeric; a numeric link that matches no record, however, raises
rather than falling back. -/
theorem c9_bundle_amended (db : List Pub) (pub : Pub) :
    (pythonInt pub.bundle = Option.none →
      ExtractBundle.getValue db pub = .ok pub.bundleString) ∧
    (∀ bid j, pythonInt pub.bundle = some bid →
      db.filter (fun p => decide (p.rowid = bid)) = [j] →
      ExtractBundle.getValue db pub = .ok j.title) := by
  constructor
  · intro h
    simp [ExtractBundle.getValue, getBundle, h]
  · intro bid j hb hf
    simp [ExtractBundle.getValue, getBundle, getPublication, Except.map, hb, hf]

theorem c9_bundle_amended_witness :
    ExtractBundle.getValue [⟨42, "J Neuro", Option.none, "x"⟩]
      ⟨1, "t", some "42", "fb"⟩ = .ok "J Neuro" :=
  (c9_bundle_amended _ _).2 42 ⟨42, "J Neuro", Option.none, "x"⟩ rfl rfl

/-- A backend whose path-to-id resolution always raises a non-HTTP error. -/
def failingIdBackend : GBackend where
  serviceAvailable := true
  getItemId := fun _ => .error (.other "id lookup failed")
  filesGetParents := fun _ => .ok []
  filesUpdate := fun _ _ _ => .ok 0
  filesPatch := fun _ _ => .ok ()

/-- A backend whose service handle is absent. -/
def offlineBackend : GBackend where
  serviceAvailable := false
  getItemId := fun _ => .ok 0
  filesGetParents := fun _ => .ok []
  filesUpdate := fun _ _ _ => .ok 0
  filesPatch := fun _ _ => .ok ()

/-- C10, counterexample: a backend error is not always resolved to a false
return: the two _get_item_id calls in GDriveAttachmentMover.move sit outside
its try block, so an error raised while resolving the source path propagates
out of move as an uncaught exception. -/
theorem c10_mover_counterexample :
    gdriveMove failingIdBackend "/Papers2/a.pdf" "/Zotero/a.pdf" =
      .error (.other "id lookup failed") :=
  rfl

/-- C10, amended: the cloud-drive move returns the backend file object or
Python None, not a boolean: with no service handle it returns None, and any
exception it propagates comes either from one of the two path-to-id
resolutions (which sit outside the try block) or is a non-HTTP error, HTTP
errors from the parent-update and rename sequence being caught, logged and
resolved to a None (falsy) return. The local-filesystem implementation,
absent from the source tree and modelled from the spec, returns false for an
I/O error in either step and true on success, never an exception. -/
theorem c10_mover_amended (b : GBackend) (fromPath toPath : String) :
    (b.serviceAvailable = false → gdriveMove b fromPath toPath = .ok Option.none) ∧
    (∀ e, gdriveMove b fromPath toPath = .error e →
      b.getItemId (GROOT ++ fromPath) = .error e ∨
      b.getItemId (GROOT ++ dirname toPath) = .error e ∨
      ∃ m, e = GErr.other m) ∧
    (∀ msg t, localAttachmentMoverMove (.ioError msg) t = false) ∧
    (∀ msg, localAttachmentMoverMove .ok (.ioError msg) = false) ∧
    localAttachmentMoverMove .ok .ok = true := by
  refine ⟨?_, ?_, fun msg t => rfl, fun msg => rfl, rfl⟩
  · intro h
    simp [gdriveMove, h]
  · intro e he
    unfold gdriveMove at he
    by_cases hs : b.serviceAvailable = true
    · rw [if_pos hs] at he
      cases h1 : b.getItemId (GROOT ++ fromPath) with
      | error e1 =>
        rw [h1] at he
        simp only [Except.error.injEq] at he
        exact Or.inl (by rw [he])
      | ok fileId =>
        rw [h1] at he
        simp only [] at he
        cases h2 : b.getItemId (GROOT ++ dirname toPath) with
        | error e2 =>
          rw [h2] at he
          simp only [Except.error.injEq] at he
          exact Or.inr (Or.inl (by rw [he]))
        | ok folderId =>
          rw [h2] at he
          simp only [] at he
          cases h3 : gdriveTrySequence b fileId folderId (basename toPath) with
          | ok f =>
            rw [h3] at he
            simp at he
          | error err =>
            rw [h3] at he
            cases err with
            | http m => simp at he
            | other m =>
              simp only [Except.error.injEq] at he
              exact Or.inr (Or.inr ⟨m, he.symm⟩)
    · rw [if_neg hs] at he
      simp at he

theorem c10_mover_amended_witness :
    gdriveMove offlineBackend "/Papers2/a.pdf" "/Zotero/a.pdf" = .ok Option.none :=
  (c10_mover_amended offlineBackend "/Papers2/a.pdf" "/Zotero/a.pdf").1 rfl

end Papers2
